import Mathlib

/-!
Verification of the must-gather parsing and analysis engine.

This development shallowly embeds the Python sources of the
mcp-must-gather-parser repository in Lean 4 and settles a fixed list of
claims about them.  The embedding covers:

* the regular-expression scrubbing in `resources/tools.py` (`sanitize_data`),
  via a small backtracking regex interpreter with Python-`re` choice
  semantics (leftmost match, alternation tries the left branch first,
  greedy quantifiers try the longest extension first, lazy the shortest);
* the pod-log scanner of `resources/logs.py` (`LogParser._parse_log_line`,
  `_parse_log_file`, `find_pod_logs_directory`);
* the failed/reason derivation of `resources/agents.py`
  (`AgentParser._parse_single_agent`);
* the issue rules, severity filter and summary of `analyzer.py`
  (`MCPAnalyzer`);
* the archive-extraction control flow of `parsers.py`
  (`MustGatherParser.parse_archive`) and `parse.py` (`parse_must_gather`),
  as a state machine over the set of temporary directories on disk.

Machine integers are modelled as `Int`/`Nat` (Python ints are unbounded),
raised exceptions as `Except`, and `None`-able fields as `Option`.
-/

set_option maxRecDepth 100000

namespace MustGather

/-! ## A regex interpreter with Python `re` semantics

Only the constructs used by the repository's patterns are embedded:
character classes (positive and negated), concatenation, alternation,
greedy and lazy star, the dot under `re.DOTALL`, and the word-boundary
assertion.  Counted repetitions `{m,n}` are expanded at pattern-build
time into nested greedy options, which reproduces Python's greedy
backtracking order.  The interpreter is written in continuation-passing
style and returns the first match in Python's backtracking priority
order; a fuel argument makes it structurally recursive, and the fuel
supplied by `matchEndAt` is large enough for every evaluation performed
in this file. -/

inductive ClsItem where
  | one (code : Nat)
  | btw (lo hi : Nat)
deriving DecidableEq

inductive Regex where
  | eps
  | any
  | cls (neg : Bool) (items : List ClsItem)
  | cat (a b : Regex)
  | alt (a b : Regex)
  | star (a : Regex)
  | starL (a : Regex)
  | wordB
deriving DecidableEq

def clsMatch (neg : Bool) (items : List ClsItem) (c : Char) : Bool :=
  let n := c.toNat
  let hit := items.any fun it =>
    match it with
    | .one m => n == m
    | .btw lo hi => lo ≤ n && n ≤ hi
  if neg then !hit else hit

/-- Python `\w`: `[a-zA-Z0-9_]` (the inputs evaluated here are ASCII). -/
def wordChar (c : Char) : Bool :=
  let n := c.toNat
  (97 ≤ n && n ≤ 122) || (65 ≤ n && n ≤ 90) || (48 ≤ n && n ≤ 57) || n == 95

def isWordCharAt (s : List Char) (j : Nat) : Bool :=
  match s.get? j with
  | some c => wordChar c
  | none => false

/-- Python `\b`: a word character on exactly one side of position `i`. -/
def wordBoundaryAt (s : List Char) (i : Nat) : Bool :=
  if i = 0 then isWordCharAt s 0
  else isWordCharAt s (i - 1) != isWordCharAt s i

/-- Matcher core.  `mrun s fuel r i k` tries to match `r` at position `i`
of `s` and calls the continuation `k` on the positions after each
candidate match, in Python's backtracking priority order, returning the
first success.  A quantified body that consumes nothing stops the
iteration, matching CPython's empty-match rule (none of the embedded
patterns has a nullable quantified body, so the guard is never hit). -/
def mrun (s : List Char) : Nat → Regex → Nat → (Nat → Option Nat) → Option Nat
  | 0, _, _, _ => none
  | fuel + 1, r, i, k =>
    match r with
    | .eps => k i
    | .any =>
      match s.get? i with
      | some _ => k (i + 1)
      | none => none
    | .cls neg items =>
      match s.get? i with
      | some c => if clsMatch neg items c then k (i + 1) else none
      | none => none
    | .wordB => if wordBoundaryAt s i then k i else none
    | .cat a b => mrun s fuel a i (fun j => mrun s fuel b j k)
    | .alt a b =>
      match mrun s fuel a i k with
      | some j => some j
      | none => mrun s fuel b i k
    | .star a =>
      match mrun s fuel a i (fun j => if i < j then mrun s fuel (.star a) j k else none) with
      | some j => some j
      | none => k i
    | .starL a =>
      match k i with
      | some j => some j
      | none => mrun s fuel a i (fun j => if i < j then mrun s fuel (.starL a) j k else none)

def regexSize : Regex → Nat
  | .eps => 1
  | .any => 1
  | .cls _ _ => 1
  | .cat a b => regexSize a + regexSize b + 1
  | .alt a b => regexSize a + regexSize b + 1
  | .star a => regexSize a + 1
  | .starL a => regexSize a + 1
  | .wordB => 1

def engineFuel (r : Regex) (s : List Char) : Nat :=
  (regexSize r + 2) * (s.length + 2)

/-- End position of the first (priority-ordered) match of `r` anchored at
position `i` of `s`, if any. -/
def matchEndAt (s : List Char) (r : Regex) (i : Nat) : Option Nat :=
  mrun s (engineFuel r s) r i some

/-- Scanner behind `re.sub`: walk the string left to right, replace each
leftmost non-overlapping match, and copy unmatched characters through. -/
def subScan (r : Regex) (repl : List Char) (s : List Char) : Nat → Nat → List Char
  | 0, _ => []
  | fuel + 1, i =>
    match s.get? i with
    | none => []
    | some c =>
      match matchEndAt s r i with
      | some j =>
        if i < j then repl ++ subScan r repl s fuel j
        else repl ++ c :: subScan r repl s fuel (i + 1)
      | none => c :: subScan r repl s fuel (i + 1)

/-- `re.sub(r, repl, text)` for the patterns embedded here (all the
repository's replacement strings are literal, so no group expansion is
needed). -/
def pySub (r : Regex) (repl : String) (text : String) : String :=
  String.mk (subScan r repl.data text.data (text.data.length + 1) 0)

/-- Scanner behind `re.search`: the span of the leftmost match, if any. -/
def searchScan (r : Regex) (s : List Char) : Nat → Nat → Option (Nat × Nat)
  | 0, _ => none
  | fuel + 1, i =>
    if i ≤ s.length then
      match matchEndAt s r i with
      | some j => some (i, j)
      | none => searchScan r s fuel (i + 1)
    else none

def pySearch (r : Regex) (text : String) : Option (Nat × Nat) :=
  searchScan r text.data (text.data.length + 2) 0

def sliceStr (text : String) (i j : Nat) : String :=
  String.mk ((text.data.drop i).take (j - i))

/-! ### Pattern-building helpers -/

def rcat : List Regex → Regex
  | [] => .eps
  | [r] => r
  | r :: rest => .cat r (rcat rest)

def ralt : List Regex → Regex
  | [] => .eps
  | [r] => r
  | r :: rest => .alt r (ralt rest)

def chr (c : Char) : Regex := .cls false [.one c.toNat]

def lit (s : String) : Regex := rcat (s.data.map chr)

/-- A single literal character under `re.IGNORECASE`. -/
def ichr (c : Char) : Regex := .cls false [.one c.toLower.toNat, .one c.toUpper.toNat]

def ilit (s : String) : Regex := rcat (s.data.map ichr)

def rplus (r : Regex) : Regex := .cat r (.star r)

def ropt (r : Regex) : Regex := .alt r .eps

def repExact (r : Regex) : Nat → Regex
  | 0 => .eps
  | n + 1 => .cat r (repExact r n)

/-- Greedy `{0,n}`. -/
def repMax (r : Regex) : Nat → Regex
  | 0 => .eps
  | n + 1 => ropt (.cat r (repMax r n))

/-- Greedy `{m,n}`. -/
def repRange (r : Regex) (m n : Nat) : Regex := .cat (repExact r m) (repMax r (n - m))

/-- Greedy `{m,}`. -/
def repAtLeast (r : Regex) (m : Nat) : Regex := .cat (repExact r m) (.star r)

/-- Python `\s` as it occurs in the patterns: space, tab, newline,
carriage return, vertical tab, form feed. -/
def wsItems : List ClsItem := [.one 32, .one 9, .one 10, .one 13, .one 11, .one 12]

/-- The class `[\'"]` (codes 39 and 34). -/
def quoteItems : List ClsItem := [.one 39, .one 34]

def wordItems : List ClsItem := [.btw 97 122, .btw 65 90, .btw 48 57, .one 95]

def digitR : Regex := .cls false [.btw 48 57]

def alphaItems : List ClsItem := [.btw 97 122, .btw 65 90]

def alnumItems : List ClsItem := [.btw 97 122, .btw 65 90, .btw 48 57]

def hexItems : List ClsItem := [.btw 48 57, .btw 97 102, .btw 65 70]

def hexR : Regex := .cls false hexItems

/-! ## `resources/tools.py`: `sanitize_data`

Each pattern below transcribes one regex literal of `_sanitize_string`
(tools.py lines 15-57), in the order it appears there; `sanitizeString`
then applies the substitutions in the order of tools.py lines 59-72.
Quote characters are written by code point (39 and 34). -/

/-- tools.py line 17: `[a-zA-Z0-9._%+-]+@[a-zA-Z0-9.-]+\.[a-zA-Z]{2,}`. -/
def emailPattern : Regex :=
  rcat [rplus (.cls false [.btw 97 122, .btw 65 90, .btw 48 57, .one 46, .one 95, .one 37, .one 43, .one 45]),
        chr '@',
        rplus (.cls false [.btw 97 122, .btw 65 90, .btw 48 57, .one 46, .one 45]),
        chr '.',
        repAtLeast (.cls false alphaItems) 2]

/-- The class `[a-zA-Z0-9-_=]` of the JWT arm of the pull-secret pattern. -/
def jwtBodyItems : List ClsItem := [.btw 97 122, .btw 65 90, .btw 48 57, .one 45, .one 95, .one 61]

/-- The class `[a-zA-Z0-9-_.+/=]` closing the JWT arm. -/
def jwtTailItems : List ClsItem :=
  [.btw 97 122, .btw 65 90, .btw 48 57, .one 45, .one 95, .one 46, .one 43, .one 47, .one 61]

/-- The class `[A-Za-z0-9-_=]` of the generic arm of the pull-secret pattern. -/
def tokBodyItems : List ClsItem := [.btw 65 90, .btw 97 122, .btw 48 57, .one 45, .one 95, .one 61]

/-- The class `[A-Za-z0-9-_.+/=]` closing the generic arm. -/
def tokTailItems : List ClsItem :=
  [.btw 65 90, .btw 97 122, .btw 48 57, .one 45, .one 95, .one 46, .one 43, .one 47, .one 61]

/-- tools.py line 20:
`(?:eyJ[a-zA-Z0-9-_=]+\.eyJ[a-zA-Z0-9-_=]+\.[a-zA-Z0-9-_.+/=]+|[A-Za-z0-9-_=]+\.[A-Za-z0-9-_=]+\.[A-Za-z0-9-_.+/=]+)`. -/
def pullSecretPattern : Regex :=
  .alt (rcat [lit "eyJ", rplus (.cls false jwtBodyItems), chr '.',
              lit "eyJ", rplus (.cls false jwtBodyItems), chr '.',
              rplus (.cls false jwtTailItems)])
       (rcat [rplus (.cls false tokBodyItems), chr '.',
              rplus (.cls false tokBodyItems), chr '.',
              rplus (.cls false tokTailItems)])

/-- The class `[A-Za-z0-9\s/+=]` used by the key and certificate bodies. -/
def pemBodyItems : List ClsItem :=
  [.btw 65 90, .btw 97 122, .btw 48 57] ++ wsItems ++ [.one 47, .one 43, .one 61]

/-- tools.py line 23:
`-----BEGIN (?:RSA|DSA|EC|OPENSSH) PRIVATE KEY-----[A-Za-z0-9\s/+=]+-----END (?:RSA|DSA|EC|OPENSSH) PRIVATE KEY-----`. -/
def sshPrivateKeyPattern : Regex :=
  rcat [lit "-----BEGIN ", ralt [lit "RSA", lit "DSA", lit "EC", lit "OPENSSH"],
        lit " PRIVATE KEY-----", rplus (.cls false pemBodyItems),
        lit "-----END ", ralt [lit "RSA", lit "DSA", lit "EC", lit "OPENSSH"],
        lit " PRIVATE KEY-----"]

/-- tools.py line 24: `ssh-(?:rsa|dss|ed25519)\s+[A-Za-z0-9/+=]+(?:\s+[\w@.-]+)?`. -/
def sshPublicKeyPattern : Regex :=
  rcat [lit "ssh-", ralt [lit "rsa", lit "dss", lit "ed25519"],
        rplus (.cls false wsItems),
        rplus (.cls false [.btw 65 90, .btw 97 122, .btw 48 57, .one 47, .one 43, .one 61]),
        ropt (rcat [rplus (.cls false wsItems),
                    rplus (.cls false (wordItems ++ [.one 64, .one 46, .one 45]))])]

/-- One octet of the IPv4 pattern: `(?:25[0-5]|2[0-4][0-9]|[01]?[0-9][0-9]?)`. -/
def ipv4Octet : Regex :=
  ralt [rcat [lit "25", .cls false [.btw 48 53]],
        rcat [chr '2', .cls false [.btw 48 52], digitR],
        rcat [ropt (.cls false [.btw 48 49]), digitR, ropt digitR]]

/-- tools.py line 27: `\b(?:O\.){3}O\b` shape with the octet above. -/
def ipv4Pattern : Regex :=
  rcat [.wordB, repExact (rcat [ipv4Octet, chr '.']) 3, ipv4Octet, .wordB]

/-- `[0-9a-fA-F]{1,4}` of the IPv6 pattern. -/
def hexQuad : Regex := repRange hexR 1 4

/-- `[0-9a-fA-F]{1,4}:`. -/
def hexQuadColon : Regex := .cat hexQuad (chr ':')

/-- `:[0-9a-fA-F]{1,4}`. -/
def colonHexQuad : Regex := .cat (chr ':') hexQuad

/-- The mixed-notation octet of the IPv6 pattern:
`(?:25[0-5]|(?:2[0-4]|1{0,1}[0-9]){0,1}[0-9])`. -/
def ipv6V4Octet : Regex :=
  ralt [rcat [lit "25", .cls false [.btw 48 53]],
        rcat [ropt (ralt [rcat [chr '2', .cls false [.btw 48 52]],
                          rcat [ropt (chr '1'), digitR]]),
              digitR]]

/-- The trailing dotted-quad of the mixed IPv6 alternatives: `(?:O\.){3,3}O`. -/
def ipv6V4Part : Regex :=
  rcat [repExact (rcat [ipv6V4Octet, chr '.']) 3, ipv6V4Octet]

/-- tools.py line 30: the twelve alternatives of the IPv6 literal pattern,
in source order, between two `\b` assertions. -/
def ipv6Pattern : Regex :=
  rcat [.wordB,
    ralt [
      rcat [repExact hexQuadColon 7, hexQuad],
      rcat [repRange hexQuadColon 1 7, chr ':'],
      rcat [repRange hexQuadColon 1 6, chr ':', hexQuad],
      rcat [repRange hexQuadColon 1 5, repRange colonHexQuad 1 2],
      rcat [repRange hexQuadColon 1 4, repRange colonHexQuad 1 3],
      rcat [repRange hexQuadColon 1 3, repRange colonHexQuad 1 4],
      rcat [repRange hexQuadColon 1 2, repRange colonHexQuad 1 5],
      rcat [hexQuad, chr ':', repRange colonHexQuad 1 6],
      rcat [chr ':', .alt (repRange colonHexQuad 1 7) (chr ':')],
      rcat [lit "fe80:", repMax (rcat [chr ':', repMax hexR 4]) 4, chr '%',
            rplus (.cls false [.btw 48 57, .btw 97 122, .btw 65 90])],
      rcat [lit "::", ropt (rcat [lit "ffff", ropt (rcat [chr ':', repRange (chr '0') 1 4]), chr ':']),
            ipv6V4Part],
      rcat [repRange hexQuadColon 1 4, chr ':', ipv6V4Part]],
    .wordB]

/-- tools.py line 33: `\b(?:[a-zA-Z0-9](?:[a-zA-Z0-9-]{0,61}[a-zA-Z0-9])?\.)+[a-zA-Z]{2,}\b`. -/
def dnsPattern : Regex :=
  rcat [.wordB,
        rplus (rcat [.cls false alnumItems,
                     ropt (rcat [repMax (.cls false (alnumItems ++ [.one 45])) 61,
                                 .cls false alnumItems]),
                     chr '.']),
        repAtLeast (.cls false alphaItems) 2, .wordB]

/-- The separator class `[\s:=]`. -/
def sepCls : Regex := .cls false (wsItems ++ [.one 58, .one 61])

/-- tools.py line 36: `\b(?:user(?:name)?|admin|root)[\s:=]+[\'"]*([a-zA-Z0-9_.-]+)[\'"]*`. -/
def usernamePattern : Regex :=
  rcat [.wordB, ralt [.cat (lit "user") (ropt (lit "name")), lit "admin", lit "root"],
        rplus sepCls, .star (.cls false quoteItems),
        rplus (.cls false [.btw 97 122, .btw 65 90, .btw 48 57, .one 95, .one 46, .one 45]),
        .star (.cls false quoteItems)]

/-- tools.py line 39: `\b(?:password|pwd|passwd)[\s:=]+[\'"]*([^\s\'"]+)[\'"]*`. -/
def passwordPattern : Regex :=
  rcat [.wordB, ralt [lit "password", lit "pwd", lit "passwd"],
        rplus sepCls, .star (.cls false quoteItems),
        rplus (.cls true (wsItems ++ quoteItems)),
        .star (.cls false quoteItems)]

/-- tools.py line 44: `-----BEGIN CERTIFICATE-----[A-Za-z0-9\s/+=]+-----END CERTIFICATE-----`. -/
def x509CertPattern : Regex :=
  rcat [lit "-----BEGIN CERTIFICATE-----", rplus (.cls false pemBodyItems),
        lit "-----END CERTIFICATE-----"]

/-- tools.py line 46: the certificate-signing-request pattern. -/
def csrPattern : Regex :=
  rcat [lit "-----BEGIN CERTIFICATE REQUEST-----", rplus (.cls false pemBodyItems),
        lit "-----END CERTIFICATE REQUEST-----"]

/-- tools.py line 48:
`-----BEGIN (?:RSA |DSA |EC )?PRIVATE KEY-----(?:.*?Proc-Type: 4,ENCRYPTED.*?)?[A-Za-z0-9\s/+=]+-----END (?:RSA |DSA |EC )?PRIVATE KEY-----`,
compiled with `re.DOTALL`, so `.` is `Regex.any`. -/
def privateKeyPattern : Regex :=
  rcat [lit "-----BEGIN ", ropt (ralt [lit "RSA ", lit "DSA ", lit "EC "]),
        lit "PRIVATE KEY-----",
        ropt (rcat [.starL .any, lit "Proc-Type: 4,ENCRYPTED", .starL .any]),
        rplus (.cls false pemBodyItems),
        lit "-----END ", ropt (ralt [lit "RSA ", lit "DSA ", lit "EC "]),
        lit "PRIVATE KEY-----"]

/-- tools.py line 50: the PEM public-key pattern. -/
def publicKeyPattern : Regex :=
  rcat [lit "-----BEGIN PUBLIC KEY-----", rplus (.cls false pemBodyItems),
        lit "-----END PUBLIC KEY-----"]

/-- tools.py line 52: the PKCS7 pattern. -/
def pkcs7Pattern : Regex :=
  rcat [lit "-----BEGIN PKCS7-----", rplus (.cls false pemBodyItems),
        lit "-----END PKCS7-----"]

/-- `[0-9a-fA-F]{2}`. -/
def hexPair : Regex := repExact hexR 2

/-- tools.py line 54: MD5, SHA-1 and SHA-256 colon-separated fingerprints,
three `\b`-delimited alternatives. -/
def fingerprintPattern : Regex :=
  ralt [rcat [.wordB, repExact (.cat hexPair (chr ':')) 15, hexPair, .wordB],
        rcat [.wordB, repExact (.cat hexPair (chr ':')) 19, hexPair, .wordB],
        rcat [.wordB, repExact (.cat hexPair (chr ':')) 31, hexPair, .wordB]]

/-- tools.py line 56: `\bcertificate serial number:?\s*([0-9a-fA-F:]+)\b`. -/
def serialPattern : Regex :=
  rcat [.wordB, lit "certificate serial number", ropt (chr ':'),
        .star (.cls false wsItems),
        rplus (.cls false [.btw 48 57, .btw 97 102, .btw 65 70, .one 58]),
        .wordB]

/-- `_sanitize_string` (tools.py lines 15-74): the fifteen substitutions in
source order — nine named substitutions, then the certificate dictionary
in insertion order. -/
def sanitizeString (text : String) : String :=
  let text := pySub emailPattern "[REDACTED_EMAIL]" text
  let text := pySub pullSecretPattern "[REDACTED_PULL_SECRET]" text
  let text := pySub sshPrivateKeyPattern "[REDACTED_SSH_PRIVATE_KEY]" text
  let text := pySub sshPublicKeyPattern "[REDACTED_SSH_PUBLIC_KEY]" text
  let text := pySub ipv4Pattern "[REDACTED_IPV4]" text
  let text := pySub ipv6Pattern "[REDACTED_IPV6]" text
  let text := pySub dnsPattern "[REDACTED_DNS]" text
  let text := pySub usernamePattern "username: [REDACTED_USERNAME]" text
  let text := pySub passwordPattern "password: [REDACTED_PASSWORD]" text
  let text := pySub x509CertPattern "[REDACTED_X509_CERT]" text
  let text := pySub csrPattern "[REDACTED_CSR]" text
  let text := pySub privateKeyPattern "[REDACTED_PRIVATE_KEY]" text
  let text := pySub publicKeyPattern "[REDACTED_PUBLIC_KEY]" text
  let text := pySub pkcs7Pattern "[REDACTED_PKCS7]" text
  let text := pySub fingerprintPattern "[REDACTED_FINGERPRINT]" text
  pySub serialPattern "[REDACTED_SERIAL]" text

/-- Python values as far as `sanitize_data`'s dispatch distinguishes them:
strings, dicts (insertion-ordered key/value lists), lists, and everything
else (ints, booleans, `None`, ...) collapsed to an opaque tag. -/
inductive PyVal where
  | pstr (s : String)
  | pdict (entries : List (String × PyVal))
  | plist (elems : List PyVal)
  | pother (tag : Nat)

mutual

/-- `sanitize_data` (tools.py lines 76-89): strings are scrubbed, dicts are
rebuilt entry by entry, and every other value is returned unchanged. -/
def sanitize_data : PyVal → PyVal
  | .pstr s => .pstr (sanitizeString s)
  | .pdict entries => .pdict (sanitizeEntries entries)
  | .plist elems => .plist elems
  | .pother tag => .pother tag

/-- The dict comprehension of tools.py lines 79-86: a string value is
scrubbed, a dict value recurses through `sanitize_data`, any other value
is copied through. -/
def sanitizeEntries : List (String × PyVal) → List (String × PyVal)
  | [] => []
  | (k, .pstr s) :: rest => (k, .pstr (sanitizeString s)) :: sanitizeEntries rest
  | (k, .pdict es) :: rest => (k, sanitize_data (.pdict es)) :: sanitizeEntries rest
  | (k, v) :: rest => (k, v) :: sanitizeEntries rest

end

/-! ## `resources/logs.py`: the log scanner -/

/-- The result dict of `LogParser._parse_log_line` (logs.py lines 148-153),
plus the `file_path` key added on retention (line 113).  `None`-able
values are `Option`s. -/
structure LogEntry where
  timestamp : Option String
  level : Option String
  message : String
  lineNumber : Nat
  filePath : Option String := none
deriving DecidableEq

/-- logs.py line 132, the ISO timestamp pattern:
`(\d{4}-\d{2}-\d{2}T\d{2}:\d{2}:\d{2}(?:\.\d+)?(?:Z|[+-]\d{2}:?\d{2})?)`. -/
def isoTimestampPattern : Regex :=
  rcat [repExact digitR 4, chr '-', repExact digitR 2, chr '-', repExact digitR 2,
        chr 'T', repExact digitR 2, chr ':', repExact digitR 2, chr ':', repExact digitR 2,
        ropt (.cat (chr '.') (rplus digitR)),
        ropt (.alt (chr 'Z')
                   (rcat [.cls false [.one 43, .one 45], repExact digitR 2,
                          ropt (chr ':'), repExact digitR 2]))]

/-- logs.py line 133, the plain datetime pattern:
`(\d{4}-\d{2}-\d{2} \d{2}:\d{2}:\d{2}(?:\.\d+)?)`. -/
def datetimeTimestampPattern : Regex :=
  rcat [repExact digitR 4, chr '-', repExact digitR 2, chr '-', repExact digitR 2,
        chr ' ', repExact digitR 2, chr ':', repExact digitR 2, chr ':', repExact digitR 2,
        ropt (.cat (chr '.') (rplus digitR))]

/-- logs.py line 137, searched with `re.IGNORECASE` (encoded by dual-case
character classes): `\b(ERROR|WARN(?:ING)?|INFO|DEBUG|TRACE|FATAL)\b`. -/
def levelPattern : Regex :=
  rcat [.wordB,
        ralt [ilit "ERROR", .cat (ilit "WARN") (ropt (ilit "ING")),
              ilit "INFO", ilit "DEBUG", ilit "TRACE", ilit "FATAL"],
        .wordB]

/-- Python's `str.upper()` on the ASCII slices extracted here. -/
def pyUpper (s : String) : String := String.mk (s.data.map Char.toUpper)

/-- `LogParser._parse_log_line` (logs.py lines 124-157).  The timestamp
patterns are tried in order and the first `re.search` hit wins; the level
is the upper-cased text of the first (case-insensitive) level match; the
message is the sanitized line.  In each pattern the capture group spans
the whole match, so `group(1)` is the matched slice.  No step of the body
can raise on a string input, so the `except` branch returning `None` is
dead and the function always yields an entry. -/
def parseLogLine (line : String) (lineNumber : Nat) : LogEntry :=
  let timestamp :=
    match pySearch isoTimestampPattern line with
    | some (i, j) => some (sliceStr line i j)
    | none =>
      match pySearch datetimeTimestampPattern line with
      | some (i, j) => some (sliceStr line i j)
      | none => none
  let level := (pySearch levelPattern line).map fun p => pyUpper (sliceStr line p.1 p.2)
  { timestamp := timestamp, level := level, message := sanitizeString line,
    lineNumber := lineNumber }

/-- Python's `needle in hay` substring test on strings. -/
def pyInStr (needle hay : String) : Bool :=
  (List.range (hay.data.length + 1)).any fun i => needle.data.isPrefixOf (hay.data.drop i)

/-- The retention loop of `LogParser._parse_log_file` (logs.py lines
104-116) over the already-split lines, numbered from `n`.  The guard is
`entry and entry['level'] == 'ERROR' and cluster_name in entry['message']`:
the dict `entry` is always truthy, the level test short-circuits, and
evaluating `None in <str>` raises `TypeError`, modelled as `Except.error`. -/
def parseLinesE (clusterName : Option String) (filePath : String) :
    Nat → List String → Except Unit (List LogEntry)
  | _, [] => .ok []
  | n, line :: rest =>
    let entry := parseLogLine line n
    if entry.level == some "ERROR" then
      match clusterName with
      | none => .error ()
      | some c =>
        if pyInStr c entry.message then
          match parseLinesE clusterName filePath (n + 1) rest with
          | .ok tail => .ok ({ entry with filePath := some filePath } :: tail)
          | .error e => .error e
        else parseLinesE clusterName filePath (n + 1) rest
    else parseLinesE clusterName filePath (n + 1) rest

/-- `LogParser._parse_log_file` (logs.py lines 97-122) on the lines of one
file: the whole body runs under `try`, and any exception — including the
`TypeError` from a `None` cluster filter — is caught and turned into an
empty result (lines 120-122). -/
def parseLogFile (clusterName : Option String) (filePath : String)
    (lines : List String) : List LogEntry :=
  match parseLinesE clusterName filePath 1 lines with
  | .ok entries => entries
  | .error _ => []

/-! ## `resources/logs.py`: `find_pod_logs_directory`

The filesystem subtree of one pod directory, as `iterdir` exposes it:
a directory has a name and an ordered child list, a file just a name. -/

inductive FSNode where
  | dir (nm : String) (children : List FSNode)
  | file (nm : String)

def FSNode.isDir : FSNode → Bool
  | .dir _ _ => true
  | .file _ => false

def FSNode.name : FSNode → String
  | .dir nm _ => nm
  | .file nm => nm

def FSNode.childList : FSNode → List FSNode
  | .dir _ cs => cs
  | .file _ => []

/-- `LogParser.find_pod_logs_directory` (logs.py lines 74-82): return the
node if it is a directory named `logs`; return `None` for a file; else
recurse into the first child produced by `iterdir` — the `for` loop
returns on its first iteration — and return `None` for an empty
directory. -/
def findPodLogsDirectory : FSNode → Option FSNode
  | .file _ => none
  | .dir nm children =>
    if nm == "logs" then some (.dir nm children)
    else
      match children with
      | [] => none
      | c :: _ => findPodLogsDirectory c

/-- The chain of first children: the node itself, then recursively the
first child of each directory along the way. -/
def firstChildChain : FSNode → List FSNode
  | .file nm => [.file nm]
  | .dir nm children =>
    .dir nm children ::
      match children with
      | [] => []
      | c :: _ => firstChildChain c

/-- Whether some child of the node is a directory named `logs`. -/
def hasLogsChild (n : FSNode) : Bool :=
  n.childList.any fun c => c.isDir && c.name == "logs"

/-! ## `resources/agents.py`: the Agent builder -/

/-- A raw condition dict as `_parse_single_agent` reads it: each
`condition.get(...)` is `None` when the key is missing. -/
structure AgentCondition where
  type : Option String
  status : Option String
  reason : Option String
  message : Option String
deriving DecidableEq

/-- The failure signature tested at agents.py line 107:
`type == 'Installed' and status == 'False' and reason == 'InstallationFailed'`. -/
def isInstallFailed (c : AgentCondition) : Bool :=
  c.type == some "Installed" && c.status == some "False" &&
    c.reason == some "InstallationFailed"

/-- The `failed`/`reason` loop of `AgentParser._parse_single_agent`
(agents.py lines 104-109): start from `failed=False, reason=None` and,
for every matching condition, overwrite both with `True` and that
condition's message. -/
def agentFailedReason (conditions : List AgentCondition) : Bool × Option String :=
  conditions.foldl
    (fun acc c => if isInstallFailed c then (true, c.message) else acc)
    (false, none)

/-! ## `analyzer.py`: the MCP analyzer

The record classes imported from `.models` (`MCPCondition`,
`MCPStatusInfo`, `NodeInfo`, `MCPIssue`, `AnalysisConfig`,
`MCPAnalysisResult`) are not present under `src/`; their shapes below are
reconstructed from how `analyzer.py` constructs and reads them and from
spec section 3.  Counts are Python ints, hence `Int`; condition
last-transition times are modelled as epoch seconds. -/

structure MCPCondition where
  type : String
  status : String
  reason : Option String := none
  message : Option String := none
  lastTransitionTime : Option Int := none
deriving DecidableEq

structure MCPStatusInfo where
  name : String
  ready_machine_count : Int
  updated_machine_count : Int
  unavailable_machine_count : Int
  machine_count : Int
  conditions : List MCPCondition
deriving DecidableEq

/-- Only the fields of `NodeInfo` that `_generate_summary` reads. -/
structure NodeInfo where
  name : String
  ready : Bool
  mcpName : Option String := none
deriving DecidableEq

structure MCPIssue where
  severity : String
  category : String
  title : String
  description : String
  affectedNodes : List String
  suggestedActions : List String
deriving DecidableEq

structure AnalysisConfig where
  check_degraded_mcps : Bool
  check_updating_mcps : Bool
  check_node_readiness : Bool
  check_machine_config_drift : Bool
  severity_threshold : String
deriving DecidableEq

/-- The fields of `MCPAnalysisResult` that `_generate_summary` and the
checks read. -/
structure MCPAnalysisResult where
  mcps : List MCPStatusInfo
  nodes : List NodeInfo
  issues : List MCPIssue
deriving DecidableEq

/-- A single-quote character (code 39), used by the f-string templates. -/
def sq : String := String.mk [Char.ofNat 39]

/-- Python string interpolation of a possibly-`None` value. -/
def optStr : Option String → String
  | some s => s
  | none => "None"

/-- The stuck-updating branch of `MCPAnalyzer._check_updating_mcps`
(analyzer.py lines 208-232): the first `Updating` condition, if `True`
and with a last-transition time more than 30 minutes before `now`,
yields one warning issue.  `datetime.now() - last_transition_time >
timedelta(minutes=30)` is modelled on epoch seconds, and the interpolated
`timedelta` is rendered as that integer number of seconds. -/
def stuckUpdatingIssues (now : Int) (mcp : MCPStatusInfo) : List MCPIssue :=
  match mcp.conditions.find? (fun c => c.type == "Updating") with
  | none => []
  | some cond =>
    if cond.status == "True" then
      match cond.lastTransitionTime with
      | none => []
      | some t =>
        if now - t > 30 * 60 then
          [{ severity := "warning", category := "updating",
             title := "MCP " ++ mcp.name ++ " stuck updating",
             description := "Machine Config Pool " ++ sq ++ mcp.name ++ sq ++
               " has been updating for " ++ toString (now - t) ++ ": " ++
               optStr cond.message,
             affectedNodes := [],
             suggestedActions :=
               ["Check machine-config-daemon logs for errors",
                "Verify node connectivity and resources",
                "Check for failed systemd units",
                "Consider pausing the MCP if necessary"] }]
        else []
    else []

/-- The issue built at analyzer.py lines 236-248 for an MCP with outdated
machines. -/
def outdatedIssue (mcp : MCPStatusInfo) : MCPIssue :=
  let outdatedCount := mcp.machine_count - mcp.updated_machine_count
  { severity := if outdatedCount ≤ 2 then "warning" else "critical",
    category := "updating",
    title := "MCP " ++ mcp.name ++ " has outdated machines",
    description := "Machine Config Pool " ++ sq ++ mcp.name ++ sq ++ " has " ++
      toString outdatedCount ++ " machines that are not updated",
    affectedNodes := [],
    suggestedActions :=
      ["Check individual node status",
       "Review machine-config-daemon logs",
       "Verify machine config application"] }

/-- The mismatched-count branch (analyzer.py lines 234-249): guarded by
`machine_count > 0 and updated_machine_count < machine_count`. -/
def outdatedMachineIssues (mcp : MCPStatusInfo) : List MCPIssue :=
  if 0 < mcp.machine_count ∧ mcp.updated_machine_count < mcp.machine_count then
    [outdatedIssue mcp]
  else []

/-- `MCPAnalyzer._check_updating_mcps` (analyzer.py lines 204-251): per
MCP, in iteration order, the stuck-updating issue (if any) then the
outdated-machines issue (if any). -/
def checkUpdatingMCPs (now : Int) : List MCPStatusInfo → List MCPIssue
  | [] => []
  | mcp :: rest =>
    stuckUpdatingIssues now mcp ++ outdatedMachineIssues mcp ++ checkUpdatingMCPs now rest

/-- The dict `{"info": 0, "warning": 1, "critical": 2}.get(key, dflt)` of
`_filter_issues_by_severity` (analyzer.py lines 311-312). -/
def severityOrderGet (key : String) (dflt : Nat) : Nat :=
  if key == "info" then 0
  else if key == "warning" then 1
  else if key == "critical" then 2
  else dflt

/-- `MCPAnalyzer._filter_issues_by_severity` (analyzer.py lines 309-317):
keep the issues whose severity rank (default 0) is at least the
threshold rank (default 1). -/
def filterIssuesBySeverity (config : AnalysisConfig) (issues : List MCPIssue) :
    List MCPIssue :=
  let threshold := severityOrderGet config.severity_threshold 1
  issues.filter fun issue => decide (threshold ≤ severityOrderGet issue.severity 0)

/-- analyzer.py line 330. -/
def isDegradedMCP (mcp : MCPStatusInfo) : Bool :=
  mcp.conditions.any fun c => c.type == "Degraded" && c.status == "True"

/-- analyzer.py line 331. -/
def isUpdatingMCP (mcp : MCPStatusInfo) : Bool :=
  mcp.conditions.any fun c => c.type == "Updating" && c.status == "True"

/-- The three name lists accumulated by the classification loop of
`_generate_summary` (analyzer.py lines 325-338), in iteration order:
degraded first, else updating, else healthy. -/
structure MCPClassLists where
  healthy : List String
  degraded : List String
  updating : List String
deriving DecidableEq

def classifyMCPs : List MCPStatusInfo → MCPClassLists
  | [] => ⟨[], [], []⟩
  | mcp :: rest =>
    let c := classifyMCPs rest
    if isDegradedMCP mcp then ⟨c.healthy, mcp.name :: c.degraded, c.updating⟩
    else if isUpdatingMCP mcp then ⟨c.healthy, c.degraded, mcp.name :: c.updating⟩
    else ⟨mcp.name :: c.healthy, c.degraded, c.updating⟩

/-- The summary dict returned by `_generate_summary` (analyzer.py lines
343-362).  The float `ready_percentage` is modelled as an exact
rational. -/
structure MCPSummary where
  total_issues : Nat
  critical_issues : Nat
  warning_issues : Nat
  info_issues : Nat
  mcp_healthy : Nat
  mcp_degraded : Nat
  mcp_updating : Nat
  healthy_mcps : List String
  degraded_mcps : List String
  updating_mcps : List String
  nodes_ready : Nat
  nodes_not_ready : Nat
  ready_percentage : Rat
  overall_health : String
deriving DecidableEq

/-- `MCPAnalyzer._generate_summary` (analyzer.py lines 319-362).  The
`overall_health` expression is transcribed verbatim:
`"healthy" if not critical_issues else "critical" if critical_issues else
"warning"` — note that its third arm is unreachable. -/
def generateSummary (result : MCPAnalysisResult) : MCPSummary :=
  let criticalIssues := result.issues.filter fun i => i.severity == "critical"
  let warningIssues := result.issues.filter fun i => i.severity == "warning"
  let infoIssues := result.issues.filter fun i => i.severity == "info"
  let cls := classifyMCPs result.mcps
  let readyNodes := result.nodes.filter fun n => n.ready
  let notReadyNodes := result.nodes.filter fun n => !n.ready
  { total_issues := result.issues.length
    critical_issues := criticalIssues.length
    warning_issues := warningIssues.length
    info_issues := infoIssues.length
    mcp_healthy := cls.healthy.length
    mcp_degraded := cls.degraded.length
    mcp_updating := cls.updating.length
    healthy_mcps := cls.healthy
    degraded_mcps := cls.degraded
    updating_mcps := cls.updating
    nodes_ready := readyNodes.length
    nodes_not_ready := notReadyNodes.length
    ready_percentage :=
      if result.nodes.isEmpty then 0
      else (readyNodes.length : Rat) / (result.nodes.length : Rat) * 100
    overall_health :=
      if criticalIssues.isEmpty then "healthy"
      else if !criticalIssues.isEmpty then "critical"
      else "warning" }

/-! ## `parsers.py` / `parse.py`: extraction and cleanup

The effect of extraction on the filesystem is modelled as the list of
temporary extraction directories currently on disk, identified by
numbers.  Whether `tar.extractall` succeeds or raises is an input. -/

structure FSState where
  tempDirs : List Nat
deriving DecidableEq

inductive ParseOutcome where
  | agents
  | errorJson
deriving DecidableEq

/-- `MustGatherParser.parse_archive` (parsers.py lines 31-63): make the
extraction directory, extract under `try`; on success keep the directory
(it is cached) and return the id; on an extraction error remove the
directory (`shutil.rmtree`, lines 57-63) and re-raise.  Data parsing and
storage after a successful extraction are abstracted away. -/
def parseArchive (extractOk : Bool) (newDir : Nat) (st : FSState) :
    FSState × Except Unit Nat :=
  let st1 : FSState := ⟨st.tempDirs ++ [newDir]⟩
  if extractOk then (st1, .ok newDir)
  else (⟨st1.tempDirs.filter (fun d => d ≠ newDir)⟩, .error ())

/-- `extract_must_gather_archive` (parse.py lines 67-83): `mkdtemp`, then
`tar.extractall`; an extraction error propagates to the caller with the
fresh directory still on disk. -/
def extractMustGatherArchive (extractOk : Bool) (newDir : Nat) (st : FSState) :
    FSState × Except Unit Nat :=
  let st1 : FSState := ⟨st.tempDirs ++ [newDir]⟩
  if extractOk then (st1, .ok newDir) else (st1, .error ())

/-- `parse_must_gather` (parse.py lines 27-64) on a `.tar.gz` input: under
`try`, extract (raising on a corrupt archive), then find the agents
(abstracted) and run `cleanup_extraction` (lines 86-96, removing the
temporary directory); the `except` handler (lines 57-64) returns an error
JSON value without any cleanup. -/
def parseMustGather (extractOk : Bool) (newDir : Nat) (st : FSState) :
    FSState × ParseOutcome :=
  match extractMustGatherArchive extractOk newDir st with
  | (st1, .ok d) => (⟨st1.tempDirs.filter (fun x => x ≠ d)⟩, .agents)
  | (st1, .error _) => (st1, .errorJson)

/-! ## Claim-side definitions and concrete fixtures -/

/-- An analyzer configuration with the given severity threshold (the four
check flags do not enter `_filter_issues_by_severity`). -/
def cfgWith (t : String) : AnalysisConfig := ⟨true, true, true, true, t⟩

/-- Whether a value is a string or a dict, the two cases `sanitize_data`
treats specially. -/
def isStrOrDict : PyVal → Bool
  | .pstr _ => true
  | .pdict _ => true
  | _ => false

/-- The per-entry value transformation claimed for dict inputs: strings
are scrubbed, nested dicts recurse, all other values pass through. -/
def dictValueTransform : PyVal → PyVal
  | .pstr s => .pstr (sanitizeString s)
  | .pdict es => sanitize_data (.pdict es)
  | v => v

/-- The string `password: 'abc'x` (quotes written by code point). -/
def pwInput : String := "password: " ++ sq ++ "abc" ++ sq ++ "x"

/-- An analysis result holding exactly one warning issue and nothing else. -/
def warnOnlyResult : MCPAnalysisResult :=
  ⟨[], [], [⟨"warning", "updating", "MCP worker has outdated machines",
             "one warning-severity issue", [], []⟩]⟩

/-- A condition matching the installation-failure signature, message
`first failure message`. -/
def condFailA : AgentCondition :=
  ⟨some "Installed", some "False", some "InstallationFailed", some "first failure message"⟩

/-- A second matching condition, message `second failure message`. -/
def condFailB : AgentCondition :=
  ⟨some "Installed", some "False", some "InstallationFailed", some "second failure message"⟩

/-- An MCP record with `machine_count = 0` and a (malformed but
representable) negative `updatedMachineCount`. -/
def mcpZero : MCPStatusInfo := ⟨"pool0", 0, -1, 0, 0, []⟩

/-- An MCP record with 5 machines of which 2 are updated (gap 3). -/
def mcpGap3 : MCPStatusInfo := ⟨"worker", 2, 2, 0, 5, []⟩

/-- A warning-severity issue for the severity-filter witness. -/
def warnIssueW : MCPIssue :=
  ⟨"warning", "updating", "a warning", "a warning issue", [], []⟩

/-- A pod directory whose first child precedes its `logs` sibling. -/
def exTree : FSNode :=
  .dir "pod-0" [.dir "container-a" [], .dir "logs" [.file "current.log"]]

/-! ## Helper lemmas -/

/-- The `failed`/`reason` loop from any accumulator: the last matching
condition, if any, determines the result. -/
theorem agentFailedReason_foldl (conds : List AgentCondition) (acc : Bool × Option String) :
    conds.foldl (fun acc c => if isInstallFailed c then (true, c.message) else acc) acc
      = match (conds.filter isInstallFailed).getLast? with
        | none => acc
        | some c => (true, c.message) := by
  induction conds using List.reverseRecOn with
  | nil => rfl
  | append_singleton l a ih =>
    rw [List.foldl_append, List.filter_append]
    cases hfa : isInstallFailed a
    · simpa [hfa] using ih
    · simp [hfa, List.getLast?_concat]

/-- The classification loop produces exactly the three severity-ordered
filters of the input list, names in iteration order. -/
theorem classifyMCPs_spec (mcps : List MCPStatusInfo) :
    (classifyMCPs mcps).degraded = (mcps.filter fun m => isDegradedMCP m).map MCPStatusInfo.name
    ∧ (classifyMCPs mcps).updating =
        (mcps.filter fun m => !isDegradedMCP m && isUpdatingMCP m).map MCPStatusInfo.name
    ∧ (classifyMCPs mcps).healthy =
        (mcps.filter fun m => !isDegradedMCP m && !isUpdatingMCP m).map MCPStatusInfo.name := by
  induction mcps with
  | nil => exact ⟨rfl, rfl, rfl⟩
  | cons m rest ih =>
    obtain ⟨ih1, ih2, ih3⟩ := ih
    cases hd : isDegradedMCP m <;> cases hu : isUpdatingMCP m <;>
      simp [classifyMCPs, List.filter_cons, hd, hu, ih1, ih2, ih3]

/-- The three classification filters partition the input length-wise. -/
theorem three_way_filter_length (mcps : List MCPStatusInfo) :
    (mcps.filter fun m => isDegradedMCP m).length
      + (mcps.filter fun m => !isDegradedMCP m && isUpdatingMCP m).length
      + (mcps.filter fun m => !isDegradedMCP m && !isUpdatingMCP m).length
      = mcps.length := by
  induction mcps with
  | nil => rfl
  | cons m rest ih =>
    cases hd : isDegradedMCP m <;> cases hu : isUpdatingMCP m <;>
      simp [List.filter_cons, hd, hu] <;> omega

/-- The dict branch of `sanitize_data` is the claimed per-entry map. -/
theorem sanitizeEntries_eq_map (es : List (String × PyVal)) :
    sanitizeEntries es = es.map fun kv => (kv.1, dictValueTransform kv.2) := by
  induction es with
  | nil => rfl
  | cons kv rest ih =>
    obtain ⟨k, v⟩ := kv
    cases v <;> simp [sanitizeEntries, dictValueTransform, ih]

/-- The search predicate of the claimed characterization: a directory
literally named `logs`. -/
def logsPred (m : FSNode) : Bool := m.isDir && m.name == "logs"

theorem logsPred_dir (nm : String) (children : List FSNode) :
    logsPred (.dir nm children) = (nm == "logs") := by
  simp [logsPred, FSNode.isDir, FSNode.name]

theorem logsPred_file (nm : String) : logsPred (.file nm) = false := rfl

/-- `find_pod_logs_directory` inspects exactly the chain of first children. -/
theorem findPodLogs_eq_chain (n : FSNode) :
    findPodLogsDirectory n = (firstChildChain n).find? logsPred := by
  induction n using findPodLogsDirectory.induct with
  | case1 nm => rfl
  | case2 nm children hl =>
    cases children <;>
      simp [findPodLogsDirectory, firstChildChain, logsPred_dir, hl,
            List.find?_cons_of_pos]
  | case3 nm hne =>
    simp [findPodLogsDirectory, firstChildChain, logsPred_dir, hne,
          List.find?_cons_of_neg, Bool.not_eq_true]
  | case4 nm hne c tail ih =>
    have hp : ¬(logsPred (.dir nm (c :: tail)) = true) := by
      rw [logsPred_dir]; exact hne
    simp only [findPodLogsDirectory, firstChildChain, hne, if_false, ih]
    rw [List.find?_cons_of_neg _ hp]
    simp [hne]

/-! ## The claims -/

/-- Claim C1.  The claim states that `overall_health` is `critical` when a
critical issue exists, else `warning` when any issue exists, else
`healthy`.  The code disagrees: its conditional's `warning` arm is
unreachable, so an analysis result with exactly one warning issue and no
critical issue is summarized as `healthy`, and no result whatsoever is
summarized as `warning`. -/
theorem overallHealth_dead_warning_branch :
    (generateSummary warnOnlyResult).overall_health = "healthy"
    ∧ (generateSummary warnOnlyResult).total_issues = 1
    ∧ (generateSummary warnOnlyResult).warning_issues = 1
    ∧ (generateSummary warnOnlyResult).critical_issues = 0
    ∧ ∀ r : MCPAnalysisResult, (generateSummary r).overall_health ≠ "warning" := by
  refine ⟨rfl, rfl, rfl, rfl, ?_⟩
  intro r
  show (if _ then _ else if _ then _ else _) ≠ _
  cases h : (r.issues.filter fun i => i.severity == "critical").isEmpty <;> simp [h]

/-- Claim C2.  The claim states that with no cluster-name filter every
`ERROR`-level line is retained.  The code disagrees: on a file whose only
line is `ERROR boom` — an `ERROR`-level line — a scan without a filter
returns no entries (the `None in entry['message']` membership test raises
`TypeError`, which the per-file handler converts to an empty result),
while the same scan with the filter `boom` retains the line. -/
theorem logScan_no_filter_drops_error_lines :
    parseLogFile none "pod.log" ["ERROR boom"] = []
    ∧ (parseLogLine "ERROR boom" 1).level = some "ERROR"
    ∧ parseLogFile (some "boom") "pod.log" ["ERROR boom"]
        = [{ timestamp := none, level := some "ERROR", message := "ERROR boom",
             lineNumber := 1, filePath := some "pod.log" }] := by
  refine ⟨?_, ?_, ?_⟩ <;> rfl

/-- Claim C3, counterexample.  With two conditions matching the
installation-failure signature, the derived reason is the message of the
second (last) condition, not of the first as the claim states. -/
theorem agentFailed_first_wins_false :
    isInstallFailed condFailA = true
    ∧ isInstallFailed condFailB = true
    ∧ agentFailedReason [condFailA, condFailB] = (true, some "second failure message")
    ∧ (agentFailedReason [condFailA, condFailB]).2 ≠ condFailA.message := by
  refine ⟨rfl, rfl, rfl, ?_⟩
  decide

/-- Claim C3, amended.  For an Agent document whose condition list
contains two or more conditions with type `Installed`, status `False`
and reason `InstallationFailed`, the builder derives `failed = True` and
the reason is the message of the LAST such condition in the list (each
match overwrites the accumulator). -/
theorem agentFailed_last_condition_wins (conds : List AgentCondition) (c : AgentCondition)
    (_htwo : 2 ≤ (conds.filter isInstallFailed).length)
    (hlast : (conds.filter isInstallFailed).getLast? = some c) :
    agentFailedReason conds = (true, c.message) := by
  unfold agentFailedReason
  rw [agentFailedReason_foldl conds (false, none), hlast]

/-- Witness for the amended claim C3 at a concrete two-condition list. -/
theorem agentFailed_last_condition_wins_witness :
    agentFailedReason [condFailA, condFailB] = (true, condFailB.message) :=
  agentFailed_last_condition_wins [condFailA, condFailB] condFailB
    (by decide) (by decide)

/-- Claim C4.  The claim states sanitization is idempotent.  The code
disagrees: sanitizing `password: 'abc'x` yields
`password: [REDACTED_PASSWORD]x`, and sanitizing that again yields
`password: [REDACTED_PASSWORD]` (the password pattern re-matches the
redaction marker together with the residual `x`), so a second pass is
not a no-op. -/
theorem sanitize_not_idempotent :
    sanitizeString pwInput = "password: [REDACTED_PASSWORD]x"
    ∧ sanitizeString "password: [REDACTED_PASSWORD]x" = "password: [REDACTED_PASSWORD]"
    ∧ sanitize_data (sanitize_data (.pstr pwInput)) ≠ sanitize_data (.pstr pwInput) := by
  refine ⟨rfl, rfl, ?_⟩
  intro h
  simp only [sanitize_data] at h
  have h2 := PyVal.pstr.inj h
  have e1 : sanitizeString pwInput = "password: [REDACTED_PASSWORD]x" := rfl
  rw [e1] at h2
  have e2 : sanitizeString "password: [REDACTED_PASSWORD]x"
      = "password: [REDACTED_PASSWORD]" := rfl
  rw [e2] at h2
  exact absurd h2 (by decide)

/-- Claim C5.  Severity filtering keeps exactly the issues whose severity
rank (`info` 0, `warning` 1, `critical` 2, anything else 0) is at least
the threshold's rank, and raising the threshold can only shrink the
result. -/
theorem severity_filter_exact_and_monotone
    (issues : List MCPIssue) (t1 t2 : String) (i : MCPIssue)
    (ht1 : t1 = "info" ∨ t1 = "warning" ∨ t1 = "critical")
    (ht2 : t2 = "info" ∨ t2 = "warning" ∨ t2 = "critical")
    (hord : severityOrderGet t1 0 ≤ severityOrderGet t2 0) :
    (i ∈ filterIssuesBySeverity (cfgWith t1) issues ↔
       i ∈ issues ∧ severityOrderGet t1 0 ≤ severityOrderGet i.severity 0)
    ∧ (i ∈ filterIssuesBySeverity (cfgWith t2) issues →
       i ∈ filterIssuesBySeverity (cfgWith t1) issues) := by
  have e1 : severityOrderGet t1 1 = severityOrderGet t1 0 := by
    rcases ht1 with h | h | h <;> subst h <;> rfl
  have e2 : severityOrderGet t2 1 = severityOrderGet t2 0 := by
    rcases ht2 with h | h | h <;> subst h <;> rfl
  refine ⟨?_, ?_⟩
  · unfold filterIssuesBySeverity cfgWith
    simp only [List.mem_filter, decide_eq_true_eq, e1]
  · intro hm
    unfold filterIssuesBySeverity cfgWith at hm ⊢
    rw [List.mem_filter] at hm ⊢
    obtain ⟨hmem, hdec⟩ := hm
    refine ⟨hmem, ?_⟩
    rw [decide_eq_true_eq] at hdec ⊢
    rw [e1]
    rw [e2] at hdec
    exact le_trans hord hdec

/-- Witness for claim C5: a single warning issue, thresholds `info` and
`critical`. -/
theorem severity_filter_exact_and_monotone_witness :
    (warnIssueW ∈ filterIssuesBySeverity (cfgWith "info") [warnIssueW] ↔
       warnIssueW ∈ [warnIssueW]
         ∧ severityOrderGet "info" 0 ≤ severityOrderGet warnIssueW.severity 0)
    ∧ (warnIssueW ∈ filterIssuesBySeverity (cfgWith "critical") [warnIssueW] →
       warnIssueW ∈ filterIssuesBySeverity (cfgWith "info") [warnIssueW]) :=
  severity_filter_exact_and_monotone [warnIssueW] "info" "critical" warnIssueW
    (Or.inl rfl) (Or.inr (Or.inr rfl)) (by decide)

/-- Claim C6.  The summary's three MCP name lists are exactly the
priority-ordered filters — degraded first, else updating, else healthy —
and they partition the MCP records: their lengths sum to the number of
records. -/
theorem mcp_classification_partition (r : MCPAnalysisResult) :
    (generateSummary r).degraded_mcps
        = (r.mcps.filter fun m => isDegradedMCP m).map MCPStatusInfo.name
    ∧ (generateSummary r).updating_mcps
        = (r.mcps.filter fun m => !isDegradedMCP m && isUpdatingMCP m).map MCPStatusInfo.name
    ∧ (generateSummary r).healthy_mcps
        = (r.mcps.filter fun m => !isDegradedMCP m && !isUpdatingMCP m).map MCPStatusInfo.name
    ∧ (generateSummary r).healthy_mcps.length + (generateSummary r).degraded_mcps.length
        + (generateSummary r).updating_mcps.length = r.mcps.length := by
  obtain ⟨h1, h2, h3⟩ := classifyMCPs_spec r.mcps
  have g1 : (generateSummary r).degraded_mcps = (classifyMCPs r.mcps).degraded := rfl
  have g2 : (generateSummary r).updating_mcps = (classifyMCPs r.mcps).updating := rfl
  have g3 : (generateSummary r).healthy_mcps = (classifyMCPs r.mcps).healthy := rfl
  refine ⟨g1.trans h1, g2.trans h2, g3.trans h3, ?_⟩
  rw [g1.trans h1, g2.trans h2, g3.trans h3]
  simp only [List.length_map]
  have := three_way_filter_length r.mcps
  omega

/-- Claim C7.  The claim states that a failed extraction of a `.tar.gz`
input leaves no temporary extraction directory behind.
`MustGatherParser.parse_archive` indeed removes its directory before
re-raising, but `parse.parse_must_gather` does not: when
`tar.extractall` raises inside `extract_must_gather_archive`, the outer
`except` returns the error JSON with the `mkdtemp` directory still on
disk. -/
theorem extraction_failure_leaves_tempdir :
    (parseMustGather false 7 ⟨[]⟩).2 = ParseOutcome.errorJson
    ∧ (parseMustGather false 7 ⟨[]⟩).1.tempDirs = [7]
    ∧ (parseArchive false 7 ⟨[]⟩).2 = Except.error ()
    ∧ (parseArchive false 7 ⟨[]⟩).1.tempDirs = [] :=
  ⟨rfl, rfl, rfl, rfl⟩

/-- Claim C8, counterexample.  The claim asserts an outdated-machines
issue for EVERY record with `updated_machine_count < machine_count`, but
the code also requires `machine_count > 0`: a record with
`machine_count = 0` and `updatedMachineCount = -1` (counts are plain
ints read from the bundle's YAML) satisfies the claimed premise yet
produces no issue at all. -/
theorem outdated_issue_claim_false_at_zero_count :
    mcpZero.updated_machine_count < mcpZero.machine_count
    ∧ checkUpdatingMCPs 0 [mcpZero] = [] :=
  ⟨by decide, rfl⟩

/-- Claim C8, amended.  For every MCP record with `machine_count > 0` and
`updated_machine_count < machine_count`, the analyzer emits an
outdated-machines issue whose severity is `warning` when the gap is at
most 2 machines and `critical` otherwise. -/
theorem outdated_issue_guarded_severity
    (now : Int) (mcps : List MCPStatusInfo) (m : MCPStatusInfo)
    (hmem : m ∈ mcps) (hpos : 0 < m.machine_count)
    (hlt : m.updated_machine_count < m.machine_count) :
    ∃ i ∈ checkUpdatingMCPs now mcps,
      i.category = "updating"
      ∧ i.title = "MCP " ++ m.name ++ " has outdated machines"
      ∧ i.severity = if m.machine_count - m.updated_machine_count ≤ 2
                     then "warning" else "critical" := by
  induction mcps with
  | nil => cases hmem
  | cons x rest ih =>
    rcases List.mem_cons.mp hmem with hx | hx
    · subst hx
      refine ⟨outdatedIssue m, ?_, rfl, rfl, rfl⟩
      have hout : outdatedMachineIssues m = [outdatedIssue m] := by
        unfold outdatedMachineIssues
        rw [if_pos ⟨hpos, hlt⟩]
      simp [checkUpdatingMCPs, hout]
    · obtain ⟨i, hi, hprops⟩ := ih hx
      exact ⟨i, by simp [checkUpdatingMCPs, hi], hprops⟩

/-- Witness for the amended claim C8: a pool of 5 machines with 2 updated
(gap 3, hence critical). -/
theorem outdated_issue_guarded_severity_witness :
    ∃ i ∈ checkUpdatingMCPs 0 [mcpGap3],
      i.category = "updating"
      ∧ i.title = "MCP " ++ mcpGap3.name ++ " has outdated machines"
      ∧ i.severity = if mcpGap3.machine_count - mcpGap3.updated_machine_count ≤ 2
                     then "warning" else "critical" :=
  outdated_issue_guarded_severity 0 [mcpGap3] mcpGap3 (by simp) (by decide) (by decide)

/-- Claim C9.  The pod-logs search equals a `find?` for a directory named
`logs` along the chain of first children; consequently on a pod
directory whose first child is not on a path to `logs`, the search
returns `None` even though a `logs` directory exists as a later sibling
child, as the concrete tree `exTree` shows. -/
theorem find_logs_first_child_chain :
    (∀ n : FSNode, findPodLogsDirectory n = (firstChildChain n).find? logsPred)
    ∧ findPodLogsDirectory exTree = none
    ∧ hasLogsChild exTree = true :=
  ⟨findPodLogs_eq_chain, rfl, rfl⟩

/-- Claim C10.  `sanitize_data` returns any value that is neither a
string nor a dict unchanged (lists included), and on a dict it maps
each entry's value through: strings are scrubbed, nested dicts recurse,
and values of any other type — including lists containing strings — are
copied through unredacted. -/
theorem sanitize_dispatch_passthrough (v : PyVal) (hv : isStrOrDict v = false)
    (entries : List (String × PyVal)) :
    sanitize_data v = v
    ∧ sanitize_data (.pdict entries)
        = .pdict (entries.map fun kv => (kv.1, dictValueTransform kv.2)) := by
  constructor
  · cases v with
    | pstr s => simp [isStrOrDict] at hv
    | pdict es => simp [isStrOrDict] at hv
    | plist xs => rfl
    | pother t => rfl
  · simp [sanitize_data, sanitizeEntries_eq_map]

/-- Witness for claim C10: a list containing an email-shaped string
passes through unredacted, both alone and as a dict value. -/
theorem sanitize_dispatch_passthrough_witness :
    sanitize_data (.plist [.pstr "a@b.cc"]) = .plist [.pstr "a@b.cc"]
    ∧ sanitize_data (.pdict [("note", .plist [.pstr "a@b.cc"])])
        = .pdict ([("note", .plist [.pstr "a@b.cc"])].map
            fun kv => (kv.1, dictValueTransform kv.2)) :=
  sanitize_dispatch_passthrough (.plist [.pstr "a@b.cc"]) rfl
    [("note", .plist [.pstr "a@b.cc"])]

end MustGather
